import Mathlib

/-!
Verification of the retrieval-and-generation orchestration layer
(`query_kb.py`, `eval_retrieval.py`) of the dynamodb-data-to-opensearch
repository, shallowly embedded in Lean 4.
-/

namespace QueryKB

/-- ASCII uppercase conversion, mirroring Python `str.upper()` on ASCII text. -/
def toUpperChar (c : Char) : Char :=
  if 97 ≤ c.toNat ∧ c.toNat ≤ 122 then Char.ofNat (c.toNat - 32) else c

/-- ASCII lowercase conversion, mirroring Python `str.lower()` on ASCII text. -/
def toLowerChar (c : Char) : Char :=
  if 65 ≤ c.toNat ∧ c.toNat ≤ 90 then Char.ofNat (c.toNat + 32) else c

/-- The character class `[A-Z]` under `re.IGNORECASE`: an ASCII letter. -/
def isAsciiLetter (c : Char) : Bool :=
  (65 ≤ c.toNat && c.toNat ≤ 90) || (97 ≤ c.toNat && c.toNat ≤ 122)

/-- The character class `\d` restricted to ASCII digits. -/
def isDigitChar (c : Char) : Bool :=
  48 ≤ c.toNat && c.toNat ≤ 57

/-- Match a literal pattern (given in uppercase) case-insensitively against the
front of the input; returns the consumed characters and the remainder. -/
def matchLit : List Char → List Char → Option (List Char × List Char)
  | [], rest => some ([], rest)
  | _ :: _, [] => none
  | p :: ps, c :: cs =>
    if toUpperChar c = p then
      match matchLit ps cs with
      | some (m, r) => some (c :: m, r)
      | none => none
    else none

/-- Greedy `+` repetition of a character class: consume a non-empty maximal
run of characters satisfying `p`. -/
def span1 (p : Char → Bool) (l : List Char) : Option (List Char × List Char) :=
  if l.takeWhile p = [] then none else some (l.takeWhile p, l.dropWhile p)

/-- Match the regex `AI-[A-Z]+-\d+` (with `re.IGNORECASE`) at the start of the
input, as in `extract_framework_id` (`query_kb.py` line 31). -/
def matchFrameworkAt (l : List Char) : Option (List Char) :=
  match matchLit ['A', 'I', '-'] l with
  | none => none
  | some (m1, r1) =>
    match span1 isAsciiLetter r1 with
    | none => none
    | some (letters, r2) =>
      match matchLit ['-'] r2 with
      | none => none
      | some (m2, r3) =>
        match span1 isDigitChar r3 with
        | none => none
        | some (digits, _) => some (m1 ++ letters ++ m2 ++ digits)

/-- Match the regex `AI-CTRL-\d+` (with `re.IGNORECASE`) at the start of the
input, as in `extract_control_id` (`query_kb.py` line 37). -/
def matchControlAt (l : List Char) : Option (List Char) :=
  match matchLit ['A', 'I', '-', 'C', 'T', 'R', 'L', '-'] l with
  | none => none
  | some (m1, r1) =>
    match span1 isDigitChar r1 with
    | none => none
    | some (digits, _) => some (m1 ++ digits)

/-- `re.search`: return the match at the leftmost position where the pattern
matches, trying successive start positions from the left. -/
def searchFirst (m : List Char → Option (List Char)) : List Char → Option (List Char)
  | [] => m []
  | c :: cs =>
    match m (c :: cs) with
    | some r => some r
    | none => searchFirst m cs

/-- `extract_framework_id` (`query_kb.py` lines 29-32): leftmost match of
`AI-[A-Z]+-\d+`, uppercased; `none` when the pattern does not occur. -/
def extract_framework_id (q : String) : Option String :=
  (searchFirst matchFrameworkAt q.data).map (fun m => ⟨m.map toUpperChar⟩)

/-- `extract_control_id` (`query_kb.py` lines 35-38): leftmost match of
`AI-CTRL-\d+`, uppercased; `none` when the pattern does not occur. -/
def extract_control_id (q : String) : Option String :=
  (searchFirst matchControlAt q.data).map (fun m => ⟨m.map toUpperChar⟩)

/-- Contiguous-sublist test on character lists: does `needle` occur inside
`hay`? -/
def subListAt (needle : List Char) : List Char → Bool
  | [] => needle.isEmpty
  | c :: t => needle.isPrefixOf (c :: t) || subListAt needle t

/-- Python's substring test `needle in hay` on strings. -/
def containsSub (needle hay : String) : Bool :=
  subListAt needle.data hay.data

/-- `str.lower()` on ASCII text. -/
def lowerString (s : String) : String := ⟨s.data.map toLowerChar⟩

/-- The keyword list of `is_usecase_query` (`query_kb.py` lines 43-49). -/
def usecase_keywords : List String :=
  ["use case", "usecase", "use-case", "assessment",
   "model name", "modelname", "ai project", "inventory",
   "design document", "tco", "rollout", "jira stories",
   "bill of material", "bom", "risk and controls",
   "overall risk", "ai category"]

/-- `is_usecase_query` (`query_kb.py` lines 41-51): case-insensitive substring
test of the query against the use-case keyword list. -/
def is_usecase_query (q : String) : Bool :=
  usecase_keywords.any (fun kw => containsSub kw (lowerString q))

/-- Does the (already lowered) query contain any keyword of the group? This is
the `any(kw in q_lower for kw in keywords)` test of `_token_budget_for_query`. -/
def matchesGroup (kws : List String) (q : String) : Bool :=
  kws.any (fun kw => containsSub kw (lowerString q))

/-- Narrow / single-field look-up keywords (`_QUERY_TOKEN_PROFILES` entry 1,
`query_kb.py` lines 59-61). -/
def narrowKeywords : List String :=
  ["overall risk", "risk level", "ai category", "status",
   "department", "sector", "vendor", "priority",
   "cloud provider", "platform"]

/-- Medium-depth question keywords (`_QUERY_TOKEN_PROFILES` entry 2,
`query_kb.py` lines 63-66). -/
def mediumKeywords : List String :=
  ["list controls", "list frameworks", "jira stories",
   "acceptance criteria", "metrics", "rollout",
   "epics", "data labels", "bill of material", "bom",
   "summary", "describe"]

/-- Deep / multi-section question keywords (`_QUERY_TOKEN_PROFILES` entry 3,
`query_kb.py` lines 68-70). -/
def deepKeywords : List String :=
  ["design document", "tco", "cost", "architecture",
   "api design", "security", "compliance",
   "risk and controls", "full detail", "everything"]

/-- `_QUERY_TOKEN_PROFILES` (`query_kb.py` lines 57-71): keyword groups in
narrow → medium → deep order, each with a `(summary, answer)` token pair. -/
def _QUERY_TOKEN_PROFILES : List (List String × Nat × Nat) :=
  [(narrowKeywords, 500, 1000),
   (mediumKeywords, 1500, 4000),
   (deepKeywords, 3000, 8000)]

/-- `_token_budget_for_query` (`query_kb.py` lines 74-85): start from the
default `(1500, 4000)` and walk the profiles in order, overwriting the running
pair on every group whose keywords occur in the lowered query. -/
def _token_budget_for_query (q : String) : Nat × Nat :=
  _QUERY_TOKEN_PROFILES.foldl
    (fun acc p => if matchesGroup p.1 q then (p.2.1, p.2.2) else acc)
    (1500, 4000)

/-- One disjunct of the metadata filter expression grammar (`equals` /
`listContains` over a metadata key and value). -/
inductive FilterClause where
  | equals (key value : String)
  | listContains (key value : String)
deriving DecidableEq

/-- A retrieval filter is an `orAll` over its clauses, as built in
`retrieve` (`query_kb.py` lines 112-126). -/
abbrev RetrievalFilter := List FilterClause

/-- The framework-branch filter (`query_kb.py` lines 112-118). -/
def frameworkFilter (v : String) : RetrievalFilter :=
  [.equals "framework_id" v,
   .listContains "framework_ids_associated" v,
   .listContains "control_ids_associated" v]

/-- The control-branch filter (`query_kb.py` lines 121-126). -/
def controlFilter (v : String) : RetrievalFilter :=
  [.equals "control_id" v,
   .listContains "control_ids_associated" v]

/-- The filter attached to the retrieval request by `retrieve`
(`query_kb.py` lines 106-126): the framework branch fires when
`extract_framework_id` succeeds, else the control branch when
`extract_control_id` succeeds, else no filter. -/
def retrievalFilter (q : String) : Option RetrievalFilter :=
  match extract_framework_id q with
  | some f => some (frameworkFilter f)
  | none =>
    match extract_control_id q with
    | some c => some (controlFilter c)
    | none => none

/-- The optional `content` object of a raw knowledge-base result item. -/
structure RawContent where
  text : Option String
deriving DecidableEq

/-- The optional `s3Location` object of a raw result item's location. -/
structure RawS3 where
  uri : Option String
deriving DecidableEq

/-- The optional `location` object of a raw result item. -/
structure RawLocation where
  s3Location : Option RawS3
deriving DecidableEq

/-- One item of the knowledge-base search response, with every field
optional, as consumed by the `.get(..., default)` chains of `retrieve`
(`query_kb.py` lines 135-140). -/
structure RawItem where
  content : Option RawContent
  score : Option ℚ
  location : Option RawLocation
deriving DecidableEq

/-- A retrieved chunk: `{"content", "score", "source"}`
(`query_kb.py` lines 136-140). -/
structure Chunk where
  content : String
  score : ℚ
  source : String
deriving DecidableEq

/-- `item.get("content", {}).get("text", "")`. -/
def itemContent (it : RawItem) : String :=
  ((it.content.getD ⟨none⟩).text).getD ""

/-- `item.get("score", 0)`. -/
def itemScore (it : RawItem) : ℚ :=
  it.score.getD 0

/-- `item.get("location", {}).get("s3Location", {}).get("uri", "N/A")`. -/
def itemSource (it : RawItem) : String :=
  ((((it.location.getD ⟨none⟩).s3Location).getD ⟨none⟩).uri).getD "N/A"

/-- Conversion of one raw response item into a chunk. -/
def mkChunk (it : RawItem) : Chunk :=
  ⟨itemContent it, itemScore it, itemSource it⟩

/-- The result-building loop of `retrieve` (`query_kb.py` lines 134-142):
each response item is appended, in the service's order. -/
def retrieveResults : List RawItem → List Chunk
  | [] => []
  | it :: rest => mkChunk it :: retrieveResults rest

/-- Round-half-to-even on rationals, the semantics of Python's `round`. -/
def roundHalfEven (x : ℚ) : ℤ :=
  let n := ⌊x⌋
  let f := x - n
  if f < 1 / 2 then n
  else if 1 / 2 < f then n + 1
  else if n % 2 = 0 then n else n + 1

/-- Python's `round(x, 4)`. -/
def pyRound4 (x : ℚ) : ℚ :=
  (roundHalfEven (x * 10000) : ℚ) / 10000

/-- The dictionary returned by `retrieve_and_generate`
(`query_kb.py` lines 208-213 and 281-288). -/
structure GenerationResult where
  answer : String
  sources : List String
  chunks_used : Nat
  retrieval_scores : List ℚ
  mean_score : ℚ
  source_match : Bool
deriving DecidableEq

/-- A run of `retrieve_and_generate` together with the calls it made to the
text-generation service: `summarizeCalls` records each `summarize_content`
invocation as `(content, query, max_tokens)` and `generateCalls` records each
final answer-generation invocation as `(user content, max_tokens)`. -/
structure PipelineTrace where
  result : GenerationResult
  summarizeCalls : List (String × String × Nat)
  generateCalls : List (String × Nat)
deriving DecidableEq

/-- `fw_id or ctrl_id or ""` (`query_kb.py` lines 275-277); an extracted
identifier is never the empty string, so Python truthiness coincides with
option matching here. -/
def targetId (q : String) : String :=
  match extract_framework_id q with
  | some f => f
  | none =>
    match extract_control_id q with
    | some c => c
    | none => ""

/-- The `[Source: ...]\n...` label applied to each chunk when assembling the
non-summarized context (`query_kb.py` lines 228-230). -/
def chunkLabel (c : Chunk) : String :=
  "[Source: " ++ c.source ++ "]\n" ++ c.content

/-- `retrieve_and_generate` (`query_kb.py` lines 198-288), with the external
services passed in as oracles: `resp` is the knowledge-base response consumed
by `retrieve`, `summarizer` the summarization service and `generator` the
answer-generation service. Returns the result dictionary together with the
log of generation-service calls. -/
def retrieve_and_generate (q : String) (resp : List RawItem)
    (summarizer : String → String → Nat → String)
    (generator : String → Nat → String) : PipelineTrace :=
  match retrieveResults resp with
  | [] =>
    ⟨⟨"No relevant information found in the knowledge base.",
      [], 0, [], 0, false⟩, [], []⟩
  | top :: rest =>
    let budgets := _token_budget_for_query q
    let step3 :=
      if is_usecase_query q then
        let s := summarizer top.content q budgets.1
        ("[Source: " ++ top.source ++ "]\n" ++ s, [top],
         [(top.content, q, budgets.1)])
      else
        (String.intercalate "\n\n---\n\n" ((top :: rest).map chunkLabel),
         top :: rest, ([] : List (String × String × Nat)))
    let context := step3.1
    let used := step3.2.1
    let userContent := "Context:\n" ++ context ++ "\n\nQuestion: " ++ q
    let answer := generator userContent budgets.2
    let scores := used.map Chunk.score
    let mean : ℚ := if scores = [] then 0 else scores.sum / scores.length
    let t := targetId q
    let sources := used.map Chunk.source
    let sm := if t = "" then true else sources.all (fun s => containsSub t s)
    ⟨⟨answer, sources, used.length, scores.map pyRound4, pyRound4 mean, sm⟩,
     step3.2.2, [(userContent, budgets.2)]⟩

end QueryKB

namespace EvalRetrieval

open QueryKB

/-- One ground-truth evaluation case (`eval_retrieval.py` lines 19-50). -/
structure EvalCase where
  query : String
  expected_sources : List String
  must_contain : List String
  must_not_contain_sources : List String
deriving DecidableEq

/-- The nested contamination loop of `evaluate` (`eval_retrieval.py` lines
89-93): for each banned identifier, every retrieved source containing it is
appended. -/
def contaminatedSources (mustNot sources : List String) : List String :=
  mustNot.foldl (fun acc bad => acc ++ sources.filter (fun s => containsSub bad s)) []

/-- The purity score (`eval_retrieval.py` line 95):
`1 - len(contaminated)/len(retrieved)` when something was retrieved, else 1. -/
def purityScore (mustNot sources : List String) : ℚ :=
  if sources = [] then 1
  else 1 - ((contaminatedSources mustNot sources).length : ℚ) / (sources.length : ℚ)

/-- The per-case result dictionary of `evaluate`
(`eval_retrieval.py` lines 111-126), field per key, in key order. -/
structure CaseResult where
  query : String
  source_recall : ℚ
  content_relevance : ℚ
  mean_retrieval_score : ℚ
  answer_faithfulness : ℚ
  cross_contamination : Bool
  purity_score : ℚ
  contaminated_sources : List String
  answer_contamination : List String
  rag_retrieval_scores : List ℚ
  rag_mean_score : ℚ
  rag_source_match : Bool
  sources_retrieved : List String
  chunks_count : Nat
deriving DecidableEq

/-- The per-case metric block of `evaluate` (`eval_retrieval.py` lines 57-126),
with the retrieved chunks and the RAG result supplied by the services. -/
def evaluateCase (ec : EvalCase) (chunks : List Chunk) (rag : GenerationResult) :
    CaseResult :=
  let retrieved_sources := chunks.map Chunk.source
  let hits := ec.expected_sources.countP
    (fun e => retrieved_sources.any (fun s => containsSub e s))
  let source_recall : ℚ :=
    if ec.expected_sources = [] then 0
    else (hits : ℚ) / (ec.expected_sources.length : ℚ)
  let all_content := String.intercalate " " (chunks.map Chunk.content)
  let keyword_hits := ec.must_contain.countP
    (fun kw => containsSub (lowerString kw) (lowerString all_content))
  let content_relevance : ℚ :=
    if ec.must_contain = [] then 0
    else (keyword_hits : ℚ) / (ec.must_contain.length : ℚ)
  let scores := chunks.map Chunk.score
  let mean : ℚ := if scores = [] then 0 else scores.sum / scores.length
  let contaminated := contaminatedSources ec.must_not_contain_sources retrieved_sources
  let cross := decide (0 < contaminated.length)
  let purity := purityScore ec.must_not_contain_sources retrieved_sources
  let answer_keyword_hits := ec.must_contain.countP
    (fun kw => containsSub (lowerString kw) (lowerString rag.answer))
  let answer_faithfulness : ℚ :=
    if ec.must_contain = [] then 0
    else (answer_keyword_hits : ℚ) / (ec.must_contain.length : ℚ)
  let answer_contamination := ec.must_not_contain_sources.filter
    (fun bad => containsSub (lowerString bad) (lowerString rag.answer))
  ⟨ec.query, source_recall, content_relevance, pyRound4 mean,
   answer_faithfulness, cross, pyRound4 purity, contaminated,
   answer_contamination, rag.retrieval_scores, rag.mean_score,
   rag.source_match, retrieved_sources, chunks.length⟩

/-- A JSON value, the shape of what `json.dump` writes. -/
inductive Json where
  | str (s : String)
  | num (q : ℚ)
  | bool (b : Bool)
  | arr (items : List Json)
  | obj (fields : List (String × Json))

/-- The JSON object serialized for one per-case result dictionary, keys in
the order of the `result` dict literal (`eval_retrieval.py` lines 111-126). -/
def caseResultJson (r : CaseResult) : Json :=
  .obj [("query", .str r.query),
        ("source_recall", .num r.source_recall),
        ("content_relevance", .num r.content_relevance),
        ("mean_retrieval_score", .num r.mean_retrieval_score),
        ("answer_faithfulness", .num r.answer_faithfulness),
        ("cross_contamination", .bool r.cross_contamination),
        ("purity_score", .num r.purity_score),
        ("contaminated_sources", .arr (r.contaminated_sources.map .str)),
        ("answer_contamination", .arr (r.answer_contamination.map .str)),
        ("rag_retrieval_scores", .arr (r.rag_retrieval_scores.map .num)),
        ("rag_mean_score", .num r.rag_mean_score),
        ("rag_source_match", .bool r.rag_source_match),
        ("sources_retrieved", .arr (r.sources_retrieved.map .str)),
        ("chunks_count", .num (r.chunks_count : ℚ))]

/-- The artifact persisted by `evaluate` (`eval_retrieval.py` lines 160-161):
`json.dump(results, f)` — the array of per-case result objects. -/
def savedReportJson (results : List CaseResult) : Json :=
  .arr (results.map caseResultJson)

/-- The printed aggregate summary of `evaluate`
(`eval_retrieval.py` lines 144-157). -/
structure EvalSummary where
  avg_recall : ℚ
  avg_relevance : ℚ
  avg_score : ℚ
  avg_faith : ℚ
  avg_purity : ℚ
  contamination_rate : ℚ
deriving DecidableEq

/-- The aggregate computation of `evaluate` (`eval_retrieval.py` lines
144-150): arithmetic means across cases plus the contamination rate. -/
def evalSummary (results : List CaseResult) : EvalSummary :=
  let n : ℚ := (results.length : ℚ)
  ⟨(results.map CaseResult.source_recall).sum / n,
   (results.map CaseResult.content_relevance).sum / n,
   (results.map CaseResult.mean_retrieval_score).sum / n,
   (results.map CaseResult.answer_faithfulness).sum / n,
   (results.map CaseResult.purity_score).sum / n,
   ((results.filter CaseResult.cross_contamination).length : ℚ) / n⟩

/-- A whole run of `evaluate` (`eval_retrieval.py` lines 53-162): per-case
results, the printed aggregate summary, and the JSON artifact written to
`eval_results.json` — which is exactly `json.dump(results)`. -/
def evaluateRun (cases : List EvalCase)
    (retrOracle : EvalCase → List RawItem)
    (ragOracle : EvalCase → GenerationResult) :
    List CaseResult × EvalSummary × Json :=
  let results := cases.map
    (fun ec => evaluateCase ec (retrieveResults (retrOracle ec)) (ragOracle ec))
  (results, evalSummary results, savedReportJson results)

/-- Does the JSON value contain an object field named `k`, at any depth? -/
def jsonHasKey (k : String) : Json → Bool
  | .str _ => false
  | .num _ => false
  | .bool _ => false
  | .arr [] => false
  | .arr (j :: js) => jsonHasKey k j || jsonHasKey k (.arr js)
  | .obj [] => false
  | .obj ((k2, v) :: fs) =>
    decide (k2 = k) || jsonHasKey k v || jsonHasKey k (.obj fs)

/-- Does the JSON value contain the number `x` as a leaf, at any depth? -/
def jsonMentionsNum (x : ℚ) : Json → Bool
  | .str _ => false
  | .num q => decide (q = x)
  | .bool _ => false
  | .arr [] => false
  | .arr (j :: js) => jsonMentionsNum x j || jsonMentionsNum x (.arr js)
  | .obj [] => false
  | .obj ((_, v) :: fs) => jsonMentionsNum x v || jsonMentionsNum x (.obj fs)

end EvalRetrieval

/-! ## Helper lemmas -/

namespace QueryKB

theorem char_toNat_ofNat {n : Nat} (h : n < 55296) : (Char.ofNat n).toNat = n := by
  have hv : n.isValidChar := Or.inl (by exact h)
  rw [Char.ofNat, dif_pos hv]
  simp [Char.ofNatAux, Char.toNat, UInt32.toNat]

theorem isAsciiLetter_of_toUpperChar {c u : Char} (h : toUpperChar c = u)
    (h1 : 65 ≤ u.toNat) (h2 : u.toNat ≤ 90) : isAsciiLetter c = true := by
  unfold toUpperChar at h
  split at h
  · simp only [isAsciiLetter, Bool.or_eq_true, Bool.and_eq_true, decide_eq_true_eq]
    right
    omega
  · subst h
    simp only [isAsciiLetter, Bool.or_eq_true, Bool.and_eq_true, decide_eq_true_eq]
    left
    exact ⟨h1, h2⟩

theorem eq_dash_of_toUpperChar {c : Char} (h : toUpperChar c = '-') : c = '-' := by
  unfold toUpperChar at h
  split at h
  · exfalso
    rename_i hc
    have := congrArg Char.toNat h
    rw [char_toNat_ofNat (by omega)] at this
    have hd : ('-' : Char).toNat = 45 := by decide
    omega
  · exact h

theorem matchLit_sound : ∀ (p l m r : List Char), matchLit p l = some (m, r) →
    l = m ++ r ∧ List.Forall₂ (fun c u => toUpperChar c = u) m p := by
  intro p
  induction p with
  | nil =>
    intro l m r h
    simp [matchLit] at h
    obtain ⟨hm, hr⟩ := h
    subst hm; subst hr
    exact ⟨rfl, List.Forall₂.nil⟩
  | cons u ps ih =>
    intro l m r h
    cases l with
    | nil => simp [matchLit] at h
    | cons c cs =>
      simp only [matchLit] at h
      split at h
      · rename_i hu
        cases hml : matchLit ps cs with
        | none => rw [hml] at h; simp at h
        | some pr =>
          obtain ⟨m2, r2⟩ := pr
          rw [hml] at h
          simp at h
          obtain ⟨hm, hr⟩ := h
          subst hm; subst hr
          obtain ⟨hcs, hf⟩ := ih cs m2 r2 (by exact hml)
          exact ⟨by rw [hcs]; rfl, List.Forall₂.cons hu hf⟩
      · exact absurd h (by simp)

/-- Any position where the control-id pattern `AI-CTRL-\d+` matches is also a
position where the framework-id pattern `AI-[A-Z]+-\d+` matches: `CTRL` is a
non-empty run of letters. -/
theorem matchFrameworkAt_isSome_of_control {l : List Char}
    (h : (matchControlAt l).isSome = true) : (matchFrameworkAt l).isSome = true := by
  unfold matchControlAt at h
  cases h8 : matchLit ['A', 'I', '-', 'C', 'T', 'R', 'L', '-'] l with
  | none => rw [h8] at h; simp at h
  | some pr =>
    obtain ⟨m1, r1⟩ := pr
    rw [h8] at h
    cases hd : span1 isDigitChar r1 with
    | none => simp [hd] at h
    | some pd =>
      obtain ⟨d1, d2⟩ := pd
      obtain ⟨hl, hf⟩ := matchLit_sound _ _ _ _ h8
      cases hf with | cons hc1 hf =>
      cases hf with | cons hc2 hf =>
      cases hf with | cons hc3 hf =>
      cases hf with | cons hc4 hf =>
      cases hf with | cons hc5 hf =>
      cases hf with | cons hc6 hf =>
      cases hf with | cons hc7 hf =>
      cases hf with | cons hc8 hf =>
      cases hf
      rename_i c1 c2 c3 c4 c5 c6 c7 c8
      subst hl
      have hd8 : c8 = '-' := eq_dash_of_toUpperChar hc8
      subst hd8
      have hA4 : isAsciiLetter c4 = true :=
        isAsciiLetter_of_toUpperChar hc4 (by decide) (by decide)
      have hA5 : isAsciiLetter c5 = true :=
        isAsciiLetter_of_toUpperChar hc5 (by decide) (by decide)
      have hA6 : isAsciiLetter c6 = true :=
        isAsciiLetter_of_toUpperChar hc6 (by decide) (by decide)
      have hA7 : isAsciiLetter c7 = true :=
        isAsciiLetter_of_toUpperChar hc7 (by decide) (by decide)
      have hdd : toUpperChar '-' = '-' := by decide
      have hlit : matchLit ['A', 'I', '-'] (c1 :: c2 :: c3 :: c4 :: c5 :: c6 :: c7 :: '-' :: r1) =
          some ([c1, c2, c3], c4 :: c5 :: c6 :: c7 :: '-' :: r1) := by
        simp [matchLit, hc1, hc2, hc3]
      have hnl : isAsciiLetter '-' = false := by decide
      have hspan : span1 isAsciiLetter (c4 :: c5 :: c6 :: c7 :: '-' :: r1) =
          some ([c4, c5, c6, c7], '-' :: r1) := by
        simp [span1, List.takeWhile, List.dropWhile, hA4, hA5, hA6, hA7, hnl]
      have hlit2 : matchLit ['-'] ('-' :: r1) = some (['-'], r1) := by
        simp [matchLit, hdd]
      simp [matchFrameworkAt, hlit, hspan, hlit2, hd]

theorem searchFirst_control_framework : ∀ l : List Char,
    (searchFirst matchControlAt l).isSome = true →
    (searchFirst matchFrameworkAt l).isSome = true := by
  intro l
  induction l with
  | nil => intro h; exact absurd h (by decide)
  | cons c cs ih =>
    intro h
    simp only [searchFirst] at h ⊢
    cases hm : matchControlAt (c :: cs) with
    | some r =>
      have := matchFrameworkAt_isSome_of_control (l := c :: cs) (by simp [hm])
      cases hf : matchFrameworkAt (c :: cs) with
      | some r2 => simp
      | none => rw [hf] at this; simp at this
    | none =>
      rw [hm] at h
      cases hf : matchFrameworkAt (c :: cs) with
      | some r2 => simp
      | none => exact ih h

/-- A fold that overwrites its accumulator on every element passing `f`
computes the image of the last passing element, or the initial value. -/
theorem foldl_overwrite {α β : Type} (f : α → Bool) (g : α → β) :
    ∀ (l : List α) (init : β),
    l.foldl (fun acc x => if f x then g x else acc) init =
      (((l.filter f).getLast?).map g).getD init := by
  intro l
  induction l with
  | nil => intro init; simp
  | cons x xs ih =>
    intro init
    by_cases h : f x
    · simp only [List.foldl_cons, h, if_pos, List.filter_cons_of_pos h]
      rw [ih]
      cases hxs : (xs.filter f).getLast? with
      | none =>
        have : xs.filter f = [] := by
          cases hf : xs.filter f with
          | nil => rfl
          | cons a b => rw [hf] at hxs; simp [List.getLast?_concat] at hxs
        simp [this, hxs]
      | some y =>
        rw [List.getLast?_cons, hxs]
        simp
    · simp only [List.foldl_cons, List.filter_cons_of_neg h]
      rw [if_neg h]
      exact ih init

/-- The length of a fold that appends a block per element is the sum of the
block lengths. -/
theorem foldl_append_length {α β : Type} (f : α → List β) :
    ∀ (l : List α) (init : List β),
    (l.foldl (fun acc x => acc ++ f x) init).length =
      init.length + (l.map (fun x => (f x).length)).sum := by
  intro l
  induction l with
  | nil => intro init; simp
  | cons x xs ih =>
    intro init
    simp only [List.foldl_cons, List.map_cons, List.sum_cons]
    rw [ih]
    simp [List.length_append]
    omega

/-- Whenever `extract_control_id` finds a control identifier,
`extract_framework_id` also finds a (framework-pattern) identifier. -/
theorem extract_framework_isSome_of_control {q : String}
    (h : (extract_control_id q).isSome = true) :
    (extract_framework_id q).isSome = true := by
  unfold extract_control_id at h
  unfold extract_framework_id
  have h2 : (searchFirst matchControlAt q.data).isSome = true := by
    cases hs : searchFirst matchControlAt q.data with
    | some r => rfl
    | none => rw [hs] at h; simp at h
  have h3 := searchFirst_control_framework _ h2
  cases hs : searchFirst matchFrameworkAt q.data with
  | some r => rfl
  | none => rw [hs] at h3; simp at h3

end QueryKB

/-! ## Claim theorems -/

namespace QueryKB

/-- C5: the token-budget classifier scans the keyword groups in their fixed
narrow → medium → deep order, overwriting the running pair on each matching
group, so the last matching group in scan order determines the budget, and
the default pair `(1500, 4000)` results when no group matches. -/
theorem c5_token_budget_last_match_wins (q : String) :
    _token_budget_for_query q =
      ((((_QUERY_TOKEN_PROFILES.filter (fun p => matchesGroup p.1 q)).getLast?).map
        (fun p : List String × Nat × Nat => (p.2.1, p.2.2))).getD (1500, 4000)) := by
  unfold _token_budget_for_query
  exact foldl_overwrite (fun p => matchesGroup p.1 q)
    (fun p : List String × Nat × Nat => (p.2.1, p.2.2)) _ _

/-- C6: a query matching only narrow-lookup keywords receives a strictly
smaller `(summaryTokens, answerTokens)` pair, componentwise, than any query
matching deep keywords. -/
theorem c6_narrow_budget_lt_deep_budget (q1 q2 : String)
    (h0 : matchesGroup narrowKeywords q1 = true)
    (h1 : matchesGroup mediumKeywords q1 = false)
    (h2 : matchesGroup deepKeywords q1 = false)
    (hd : matchesGroup deepKeywords q2 = true) :
    (_token_budget_for_query q1).1 < (_token_budget_for_query q2).1 ∧
    (_token_budget_for_query q1).2 < (_token_budget_for_query q2).2 := by
  simp [_token_budget_for_query, _QUERY_TOKEN_PROFILES, h0, h1, h2, hd]

/-- C6 witness: "What is the overall risk?" matches only the narrow group,
"Describe the full design document and TCO" matches the deep group, and the
former's budget pair is strictly smaller componentwise. -/
theorem c6_witness :
    (_token_budget_for_query "What is the overall risk?").1 <
      (_token_budget_for_query "Describe the full design document and TCO").1 ∧
    (_token_budget_for_query "What is the overall risk?").2 <
      (_token_budget_for_query "Describe the full design document and TCO").2 :=
  c6_narrow_budget_lt_deep_budget _ _ (by decide) (by decide) (by decide) (by decide)

end QueryKB

namespace QueryKB

/-- C1 counterexample: the query "AI-CTRL-00001" yields a control identifier
and contains no other identifier text, yet `retrieve` attaches the
framework-branch filter (the framework pattern `AI-[A-Z]+-\d+` also matches
`AI-CTRL-00001`), not the control-branch filter the claim describes. -/
theorem c1_counterexample :
    extract_control_id "AI-CTRL-00001" = some "AI-CTRL-00001" ∧
    extract_framework_id "AI-CTRL-00001" = some "AI-CTRL-00001" ∧
    retrievalFilter "AI-CTRL-00001" = some (frameworkFilter "AI-CTRL-00001") ∧
    retrievalFilter "AI-CTRL-00001" ≠ some (controlFilter "AI-CTRL-00001") := by
  refine ⟨by decide, by decide, by decide, by decide⟩

/-- C1 amended: whenever any identifier is extracted — a framework identifier,
or a control identifier (from which the framework pattern also matches, since
`CTRL` is a run of letters) — the framework branch and only the framework
branch builds the filter, so the control branch never fires; and when no
identifier at all is extracted, no filter is attached to the retrieval
request. -/
theorem c1_filter_branches (q : String) :
    (∀ f, extract_framework_id q = some f →
      retrievalFilter q = some (frameworkFilter f)) ∧
    (∀ c, extract_control_id q = some c →
      ∃ f, extract_framework_id q = some f ∧
        retrievalFilter q = some (frameworkFilter f)) ∧
    (extract_framework_id q = none →
      extract_control_id q = none ∧ retrievalFilter q = none) := by
  refine ⟨?_, ?_, ?_⟩
  · intro f hf
    unfold retrievalFilter
    rw [hf]
  · intro c hc
    have h1 : (extract_control_id q).isSome = true := by rw [hc]; rfl
    have h2 := extract_framework_isSome_of_control h1
    cases hf : extract_framework_id q with
    | none => rw [hf] at h2; simp at h2
    | some f =>
      refine ⟨f, rfl, ?_⟩
      unfold retrievalFilter
      rw [hf]
  · intro hf
    have hcn : extract_control_id q = none := by
      cases hc : extract_control_id q with
      | none => rfl
      | some c =>
        have h1 : (extract_control_id q).isSome = true := by rw [hc]; rfl
        have h2 := extract_framework_isSome_of_control h1
        rw [hf] at h2
        simp at h2
    refine ⟨hcn, ?_⟩
    unfold retrievalFilter
    rw [hf, hcn]

/-- C1 witness: at the framework-only query "List controls attached to
AI-ADF-013" the framework branch attaches the framework filter; at
"AI-CTRL-00001" the framework branch fires as well; at
"What frameworks are available?" no identifier is extracted and no filter is
attached. -/
theorem c1_witness :
    (retrievalFilter "List controls attached to AI-ADF-013" =
      some (frameworkFilter "AI-ADF-013")) ∧
    (∃ f, extract_framework_id "AI-CTRL-00001" = some f ∧
      retrievalFilter "AI-CTRL-00001" = some (frameworkFilter f)) ∧
    (extract_control_id "What frameworks are available?" = none ∧
      retrievalFilter "What frameworks are available?" = none) :=
  ⟨(c1_filter_branches "List controls attached to AI-ADF-013").1
      "AI-ADF-013" (by decide),
   (c1_filter_branches "AI-CTRL-00001").2.1 "AI-CTRL-00001" (by decide),
   (c1_filter_branches "What frameworks are available?").2.2 (by decide)⟩

end QueryKB

namespace QueryKB

theorem retrieveResults_eq_map (resp : List RawItem) :
    retrieveResults resp = resp.map mkChunk := by
  induction resp with
  | nil => rfl
  | cons it rest ih => simp [retrieveResults, ih]

/-- C10: `retrieve` is total over missing response fields — a missing content
text yields `""`, a missing score yields `0`, a missing location (at either
nesting level) yields `"N/A"` — and the items are emitted pointwise in the
service's order, without re-sorting. -/
theorem c10_retrieve_total (resp : List RawItem) (i : Nat) (it : RawItem)
    (h : resp[i]? = some it) :
    (retrieveResults resp).length = resp.length ∧
    (retrieveResults resp)[i]? = some (mkChunk it) ∧
    (it.content = none → (mkChunk it).content = "") ∧
    (∀ rc, it.content = some rc → rc.text = none → (mkChunk it).content = "") ∧
    (it.score = none → (mkChunk it).score = 0) ∧
    (it.location = none → (mkChunk it).source = "N/A") ∧
    (∀ loc, it.location = some loc → loc.s3Location = none →
      (mkChunk it).source = "N/A") := by
  refine ⟨?_, ?_, ?_, ?_, ?_, ?_, ?_⟩
  · rw [retrieveResults_eq_map]; simp
  · rw [retrieveResults_eq_map]; simp [List.getElem?_map, h]
  · intro hc; simp [mkChunk, itemContent, hc]
  · intro rc hc ht; simp [mkChunk, itemContent, hc, ht]
  · intro hs; simp [mkChunk, itemScore, hs]
  · intro hl; simp [mkChunk, itemSource, hl]
  · intro loc hl hs; simp [mkChunk, itemSource, hl, hs]

/-- C10 witness: a response item with every field missing is emitted as the
chunk `("", 0, "N/A")` at its position. -/
theorem c10_witness :
    (retrieveResults [(⟨none, none, none⟩ : RawItem)])[0]? =
      some (mkChunk ⟨none, none, none⟩) ∧
    (mkChunk (⟨none, none, none⟩ : RawItem)).content = "" ∧
    (mkChunk (⟨none, none, none⟩ : RawItem)).score = 0 ∧
    (mkChunk (⟨none, none, none⟩ : RawItem)).source = "N/A" :=
  let t := c10_retrieve_total [⟨none, none, none⟩] 0 ⟨none, none, none⟩ rfl
  ⟨t.2.1, t.2.2.1 rfl, t.2.2.2.2.1 rfl, t.2.2.2.2.2.1 rfl⟩

/-- C3: when retrieval returns zero passages, `retrieve_and_generate` returns
the canned no-relevant-information answer with an empty sources list and
`chunks_used = 0`, and makes no call to the text-generation service (neither
for summarization nor for answering). -/
theorem c3_empty_retrieval_short_circuit (q : String) (resp : List RawItem)
    (s : String → String → Nat → String) (g : String → Nat → String)
    (h : retrieveResults resp = []) :
    (retrieve_and_generate q resp s g).result.answer =
      "No relevant information found in the knowledge base." ∧
    (retrieve_and_generate q resp s g).result.sources = [] ∧
    (retrieve_and_generate q resp s g).result.chunks_used = 0 ∧
    (retrieve_and_generate q resp s g).summarizeCalls = [] ∧
    (retrieve_and_generate q resp s g).generateCalls = [] := by
  simp [retrieve_and_generate, h]

/-- C3 witness: an empty knowledge-base response short-circuits generation. -/
theorem c3_witness :
    (retrieve_and_generate "List controls attached to AI-ADF-013" []
      (fun _ _ _ => "") (fun _ _ => "")).result.answer =
      "No relevant information found in the knowledge base." ∧
    (retrieve_and_generate "List controls attached to AI-ADF-013" []
      (fun _ _ _ => "") (fun _ _ => "")).result.sources = [] ∧
    (retrieve_and_generate "List controls attached to AI-ADF-013" []
      (fun _ _ _ => "") (fun _ _ => "")).result.chunks_used = 0 ∧
    (retrieve_and_generate "List controls attached to AI-ADF-013" []
      (fun _ _ _ => "") (fun _ _ => "")).summarizeCalls = [] ∧
    (retrieve_and_generate "List controls attached to AI-ADF-013" []
      (fun _ _ _ => "") (fun _ _ => "")).generateCalls = [] :=
  c3_empty_retrieval_short_circuit _ _ _ _ rfl

end QueryKB

namespace QueryKB

/-- C2 counterexample: for a query with no extractable identifier and an empty
retrieval result, the claim says `sourceMatch` is vacuously true, but the
canned empty-retrieval result hard-codes `source_match = false`
(`query_kb.py` line 212). -/
theorem c2_counterexample :
    extract_framework_id "What frameworks are available?" = none ∧
    extract_control_id "What frameworks are available?" = none ∧
    (retrieve_and_generate "What frameworks are available?" []
      (fun _ _ _ => "") (fun _ _ => "")).result.sources = [] ∧
    (retrieve_and_generate "What frameworks are available?" []
      (fun _ _ _ => "") (fun _ _ => "")).result.source_match = false := by
  refine ⟨by decide, by decide, by decide, by decide⟩

/-- C2 amended: when retrieval is non-empty, `source_match` is true iff no
identifier was extracted or every source in the returned sources list
contains the extracted target identifier as a substring; when retrieval is
empty, `source_match` is false. -/
theorem c2_source_match (q : String) (resp : List RawItem)
    (s : String → String → Nat → String) (g : String → Nat → String) :
    (retrieveResults resp = [] →
      (retrieve_and_generate q resp s g).result.source_match = false) ∧
    (retrieveResults resp ≠ [] →
      ((retrieve_and_generate q resp s g).result.source_match = true ↔
        (targetId q = "" ∨
          ∀ src ∈ (retrieve_and_generate q resp s g).result.sources,
            containsSub (targetId q) src = true))) := by
  constructor
  · intro h
    simp [retrieve_and_generate, h]
  · intro h
    cases hr : retrieveResults resp with
    | nil => exact absurd hr h
    | cons top rest =>
      by_cases hu : is_usecase_query q = true
      · simp only [retrieve_and_generate, hr, hu, if_pos]
        by_cases ht : targetId q = ""
        · simp [ht]
        · simp [ht, List.all_eq_true]
      · rw [Bool.not_eq_true] at hu
        simp only [retrieve_and_generate, hr, hu]
        by_cases ht : targetId q = ""
        · simp [ht]
        · simp [ht, List.all_eq_true]

/-- C2 witness: the empty-retrieval branch at a no-identifier query, and the
iff at an identifier query with one retrieved passage. -/
theorem c2_witness :
    ((retrieve_and_generate "What is the status?" []
      (fun _ _ _ => "") (fun _ _ => "")).result.source_match = false) ∧
    ((retrieve_and_generate "List controls attached to AI-ADF-013"
        [⟨some ⟨some "chunk"⟩, some 1, some ⟨some ⟨some "s3://kb/AI-ADF-013/controls.md"⟩⟩⟩]
        (fun _ _ _ => "") (fun _ _ => "")).result.source_match = true ↔
      (targetId "List controls attached to AI-ADF-013" = "" ∨
        ∀ src ∈ (retrieve_and_generate "List controls attached to AI-ADF-013"
          [⟨some ⟨some "chunk"⟩, some 1, some ⟨some ⟨some "s3://kb/AI-ADF-013/controls.md"⟩⟩⟩]
          (fun _ _ _ => "") (fun _ _ => "")).result.sources,
          containsSub (targetId "List controls attached to AI-ADF-013") src = true)) :=
  ⟨(c2_source_match "What is the status?" [] (fun _ _ _ => "") (fun _ _ => "")).1 rfl,
   (c2_source_match "List controls attached to AI-ADF-013"
      [⟨some ⟨some "chunk"⟩, some 1, some ⟨some ⟨some "s3://kb/AI-ADF-013/controls.md"⟩⟩⟩]
      (fun _ _ _ => "") (fun _ _ => "")).2 (by simp [retrieveResults])⟩

end QueryKB

namespace QueryKB

/-- C7 counterexample: a large-document-mode query retrieving two passages
(scores 1/2 and 1/4) reports only the kept top passage's score — the claim
that the scores of all originally retrieved passages are still reported is
false. -/
theorem c7_counterexample :
    is_usecase_query "Tell me about the use case" = true ∧
    (retrieveResults
      [⟨some ⟨some "doc1"⟩, some (1/2), some ⟨some ⟨some "s3://kb/a"⟩⟩⟩,
       ⟨some ⟨some "doc2"⟩, some (1/4), some ⟨some ⟨some "s3://kb/b"⟩⟩⟩]).map Chunk.score
      = [1/2, 1/4] ∧
    (retrieve_and_generate "Tell me about the use case"
      [⟨some ⟨some "doc1"⟩, some (1/2), some ⟨some ⟨some "s3://kb/a"⟩⟩⟩,
       ⟨some ⟨some "doc2"⟩, some (1/4), some ⟨some ⟨some "s3://kb/b"⟩⟩⟩]
      (fun _ _ _ => "SUM") (fun _ _ => "ANS")).result.retrieval_scores = [1/2] := by
  refine ⟨by decide, ?_, ?_⟩
  · simp +decide [retrieveResults, mkChunk, itemContent, itemScore, itemSource]
  · simp +decide [retrieve_and_generate, retrieveResults, mkChunk, itemContent,
      itemScore, itemSource, pyRound4, roundHalfEven]
    norm_num

/-- C7 amended: in large-document mode with a non-empty retrieval, the
summarizer is invoked exactly once, on the highest-ranked passage, the
remaining passages are discarded for the answer path, and only the kept
passage's source and (rounded) retrieval score are reported in the result. -/
theorem c7_usecase_single_chunk (q : String) (resp : List RawItem)
    (s : String → String → Nat → String) (g : String → Nat → String)
    (top : Chunk) (rest : List Chunk)
    (hu : is_usecase_query q = true)
    (hr : retrieveResults resp = top :: rest) :
    (retrieve_and_generate q resp s g).summarizeCalls =
      [(top.content, q, (_token_budget_for_query q).1)] ∧
    (retrieve_and_generate q resp s g).result.sources = [top.source] ∧
    (retrieve_and_generate q resp s g).result.retrieval_scores =
      [pyRound4 top.score] ∧
    (retrieve_and_generate q resp s g).result.chunks_used = 1 := by
  simp [retrieve_and_generate, hr, hu]

/-- C7 witness: the amended behavior at a concrete two-passage
large-document-mode run. -/
theorem c7_witness :
    (retrieve_and_generate "Describe the use case assessment"
      [⟨some ⟨some "docA"⟩, some 1, some ⟨some ⟨some "s3://kb/x"⟩⟩⟩,
       ⟨some ⟨some "docB"⟩, some 1, some ⟨some ⟨some "s3://kb/y"⟩⟩⟩]
      (fun _ _ _ => "SUM") (fun _ _ => "ANS")).summarizeCalls =
      [((mkChunk ⟨some ⟨some "docA"⟩, some 1, some ⟨some ⟨some "s3://kb/x"⟩⟩⟩).content,
        "Describe the use case assessment",
        (_token_budget_for_query "Describe the use case assessment").1)] ∧
    (retrieve_and_generate "Describe the use case assessment"
      [⟨some ⟨some "docA"⟩, some 1, some ⟨some ⟨some "s3://kb/x"⟩⟩⟩,
       ⟨some ⟨some "docB"⟩, some 1, some ⟨some ⟨some "s3://kb/y"⟩⟩⟩]
      (fun _ _ _ => "SUM") (fun _ _ => "ANS")).result.sources =
      [(mkChunk ⟨some ⟨some "docA"⟩, some 1, some ⟨some ⟨some "s3://kb/x"⟩⟩⟩).source] ∧
    (retrieve_and_generate "Describe the use case assessment"
      [⟨some ⟨some "docA"⟩, some 1, some ⟨some ⟨some "s3://kb/x"⟩⟩⟩,
       ⟨some ⟨some "docB"⟩, some 1, some ⟨some ⟨some "s3://kb/y"⟩⟩⟩]
      (fun _ _ _ => "SUM") (fun _ _ => "ANS")).result.retrieval_scores =
      [pyRound4 (mkChunk ⟨some ⟨some "docA"⟩, some 1, some ⟨some ⟨some "s3://kb/x"⟩⟩⟩).score] ∧
    (retrieve_and_generate "Describe the use case assessment"
      [⟨some ⟨some "docA"⟩, some 1, some ⟨some ⟨some "s3://kb/x"⟩⟩⟩,
       ⟨some ⟨some "docB"⟩, some 1, some ⟨some ⟨some "s3://kb/y"⟩⟩⟩]
      (fun _ _ _ => "SUM") (fun _ _ => "ANS")).result.chunks_used = 1 :=
  c7_usecase_single_chunk "Describe the use case assessment"
    [⟨some ⟨some "docA"⟩, some 1, some ⟨some ⟨some "s3://kb/x"⟩⟩⟩,
     ⟨some ⟨some "docB"⟩, some 1, some ⟨some ⟨some "s3://kb/y"⟩⟩⟩]
    (fun _ _ _ => "SUM") (fun _ _ => "ANS")
    (mkChunk ⟨some ⟨some "docA"⟩, some 1, some ⟨some ⟨some "s3://kb/x"⟩⟩⟩)
    [mkChunk ⟨some ⟨some "docB"⟩, some 1, some ⟨some ⟨some "s3://kb/y"⟩⟩⟩]
    (by decide) rfl

end QueryKB

namespace EvalRetrieval

open QueryKB

/-- C4 counterexample: with banned identifiers `["A", "B"]` and the single
retrieved source `"AB"` (which contains both), the nested contamination loop
counts the source once per banned identifier, so the computed purity score is
`1 - 2/1 = -1` — outside `[0,1]` and different from the claim's
`1 - (contaminated sources)/(total) = 1 - 1/1 = 0`. -/
theorem c4_counterexample :
    contaminatedSources ["A", "B"] ["AB"] = ["AB", "AB"] ∧
    purityScore ["A", "B"] ["AB"] = -1 ∧
    purityScore ["A", "B"] ["AB"] < 0 := by
  have h : purityScore ["A", "B"] ["AB"] = -1 := by
    simp +decide [purityScore, contaminatedSources]
    norm_num
  refine ⟨by decide, h, by rw [h]; norm_num⟩

/-- The number of (banned identifier, retrieved source) pairs such that the
source contains the identifier. -/
def contaminationPairCount (mustNot sources : List String) : Nat :=
  (mustNot.map (fun bad => (sources.filter (fun s => containsSub bad s)).length)).sum

/-- C4 amended: the purity score equals `1` when nothing was retrieved, and
otherwise `1 - pairs/total`, where `pairs` counts (banned identifier, source)
pairs — a source containing several banned identifiers is counted once per
identifier, so the score can drop below `0`. -/
theorem c4_purity_pair_count (mustNot sources : List String) :
    purityScore mustNot sources =
      if sources = [] then 1
      else 1 - (contaminationPairCount mustNot sources : ℚ) / (sources.length : ℚ) := by
  unfold purityScore
  by_cases h : sources = []
  · simp [h]
  · rw [if_neg h, if_neg h]
    have hlen := foldl_append_length
      (fun bad => sources.filter (fun s => containsSub bad s)) mustNot []
    simp only [List.length_nil, Nat.zero_add] at hlen
    unfold contaminatedSources contaminationPairCount
    rw [hlen]

/-- C9: when a case's `expected_sources` is empty, source recall is computed
as `0` (not `1`); when its `must_contain` is empty, content relevance and
answer faithfulness are computed as `0` — the `0/0` edge case resolves to
`0`. -/
theorem c9_zero_over_zero (ec : EvalCase) (chunks : List Chunk)
    (rag : GenerationResult) :
    (ec.expected_sources = [] → (evaluateCase ec chunks rag).source_recall = 0) ∧
    (ec.must_contain = [] →
      (evaluateCase ec chunks rag).content_relevance = 0 ∧
      (evaluateCase ec chunks rag).answer_faithfulness = 0) := by
  constructor
  · intro h
    simp [evaluateCase, h]
  · intro h
    constructor
    · simp [evaluateCase, h]
    · simp [evaluateCase, h]

/-- C9 witness: a case with both ground-truth sets empty evaluates to recall,
relevance and faithfulness all `0`. -/
theorem c9_witness :
    (evaluateCase ⟨"q", [], [], []⟩ [] ⟨"a", [], 0, [], 0, false⟩).source_recall = 0 ∧
    (evaluateCase ⟨"q", [], [], []⟩ [] ⟨"a", [], 0, [], 0, false⟩).content_relevance = 0 ∧
    (evaluateCase ⟨"q", [], [], []⟩ [] ⟨"a", [], 0, [], 0, false⟩).answer_faithfulness = 0 :=
  ⟨(c9_zero_over_zero ⟨"q", [], [], []⟩ [] ⟨"a", [], 0, [], 0, false⟩).1 rfl,
   ((c9_zero_over_zero ⟨"q", [], [], []⟩ [] ⟨"a", [], 0, [], 0, false⟩).2 rfl).1,
   ((c9_zero_over_zero ⟨"q", [], [], []⟩ [] ⟨"a", [], 0, [], 0, false⟩).2 rfl).2⟩

end EvalRetrieval

namespace EvalRetrieval

open QueryKB

theorem roundHalfEven_intCast (n : ℤ) : roundHalfEven (n : ℚ) = n := by
  unfold roundHalfEven
  simp [Int.floor_intCast]

theorem pyRound4_intCast (n : ℤ) : pyRound4 (n : ℚ) = n := by
  unfold pyRound4
  rw [show ((n : ℚ) * 10000) = ((n * 10000 : ℤ) : ℚ) by push_cast; ring]
  rw [roundHalfEven_intCast]
  push_cast
  field_simp

theorem pyRound4_zero : pyRound4 0 = 0 := by
  have := pyRound4_intCast 0
  simpa using this

theorem pyRound4_one : pyRound4 1 = 1 := by
  have := pyRound4_intCast 1
  simpa using this

/-- The keys of one per-case result object, in dict-literal order
(`eval_retrieval.py` lines 111-126). -/
def perCaseKeys : List String :=
  ["query", "source_recall", "content_relevance", "mean_retrieval_score",
   "answer_faithfulness", "cross_contamination", "purity_score",
   "contaminated_sources", "answer_contamination", "rag_retrieval_scores",
   "rag_mean_score", "rag_source_match", "sources_retrieved", "chunks_count"]

theorem jsonHasKey_arr_str (k : String) (l : List String) :
    jsonHasKey k (.arr (l.map Json.str)) = false := by
  induction l with
  | nil => simp [jsonHasKey]
  | cons x xs ih => simp [jsonHasKey, ih]

theorem jsonHasKey_arr_num (k : String) (l : List ℚ) :
    jsonHasKey k (.arr (l.map Json.num)) = false := by
  induction l with
  | nil => simp [jsonHasKey]
  | cons x xs ih => simp [jsonHasKey, ih]

theorem jsonHasKey_caseResultJson {k : String} (r : CaseResult)
    (h : jsonHasKey k (caseResultJson r) = true) : k ∈ perCaseKeys := by
  simp [caseResultJson, jsonHasKey, jsonHasKey_arr_str, jsonHasKey_arr_num] at h
  simp [perCaseKeys]
  tauto

theorem jsonHasKey_savedReport {k : String} (results : List CaseResult)
    (h : jsonHasKey k (savedReportJson results) = true) : k ∈ perCaseKeys := by
  induction results with
  | nil => simp [savedReportJson, jsonHasKey] at h
  | cons r rs ih =>
    simp only [savedReportJson, List.map_cons, jsonHasKey, Bool.or_eq_true] at h
    rcases h with h | h
    · exact jsonHasKey_caseResultJson r h
    · exact ih h

theorem jsonMentionsNum_arr_str (x : ℚ) (l : List String) :
    jsonMentionsNum x (.arr (l.map Json.str)) = false := by
  induction l with
  | nil => simp [jsonMentionsNum]
  | cons a as ih => simp [jsonMentionsNum, ih]

theorem jsonMentionsNum_arr_num (x : ℚ) (l : List ℚ) :
    jsonMentionsNum x (.arr (l.map Json.num)) = l.any (fun q => decide (q = x)) := by
  induction l with
  | nil => simp [jsonMentionsNum]
  | cons a as ih => simp [jsonMentionsNum, ih]

/-- A two-case evaluation battery used to exercise the report persistence. -/
def c8CaseA : EvalCase := ⟨"q1", ["X"], [], []⟩

/-- Second case of the two-case battery. -/
def c8CaseB : EvalCase := ⟨"q2", ["Y"], [], []⟩

/-- Retrieval service behavior for the two-case battery: one hit for `q1`
(source contains "X"), one miss for `q2`. -/
def c8RetrOracle (ec : EvalCase) : List RawItem :=
  if ec.query = "q1" then [⟨some ⟨some "c"⟩, none, some ⟨some ⟨some "X1"⟩⟩⟩]
  else [⟨some ⟨some "c"⟩, none, some ⟨some ⟨some "Z"⟩⟩⟩]

/-- Generation result used for both cases of the battery. -/
def c8RagOracle (_ : EvalCase) : GenerationResult := ⟨"a", [], 0, [], 0, true⟩

theorem c8_run_results :
    (evaluateRun [c8CaseA, c8CaseB] c8RetrOracle c8RagOracle).1 =
      [⟨"q1", 1, 0, 0, 0, false, 1, [], [], [], 0, true, ["X1"], 1⟩,
       ⟨"q2", 0, 0, 0, 0, false, 1, [], [], [], 0, true, ["Z"], 1⟩] := by
  simp +decide [evaluateRun, evaluateCase, c8CaseA, c8CaseB, c8RetrOracle, c8RagOracle,
    retrieveResults, mkChunk, itemContent, itemScore, itemSource,
    contaminatedSources, purityScore, pyRound4_zero, pyRound4_one]

/-- C8 counterexample: in a run whose aggregate average source recall is
`1/2`, the persisted report (`json.dump(results)`) mentions neither the value
`1/2` anywhere nor any aggregate key — the aggregate summary is only printed,
not persisted. -/
theorem c8_counterexample :
    (evaluateRun [c8CaseA, c8CaseB] c8RetrOracle c8RagOracle).2.1.avg_recall = 1/2 ∧
    jsonMentionsNum (1/2)
      (evaluateRun [c8CaseA, c8CaseB] c8RetrOracle c8RagOracle).2.2 = false ∧
    jsonHasKey "contamination_rate"
      (evaluateRun [c8CaseA, c8CaseB] c8RetrOracle c8RagOracle).2.2 = false := by
  have hres := c8_run_results
  refine ⟨?_, ?_, ?_⟩
  · show (evalSummary (evaluateRun [c8CaseA, c8CaseB] c8RetrOracle c8RagOracle).1).avg_recall = 1/2
    rw [hres]
    simp [evalSummary]
  · show jsonMentionsNum (1/2)
      (savedReportJson (evaluateRun [c8CaseA, c8CaseB] c8RetrOracle c8RagOracle).1) = false
    rw [hres]
    simp [savedReportJson, caseResultJson, jsonMentionsNum, jsonMentionsNum_arr_str,
      jsonMentionsNum_arr_num]
  · show jsonHasKey "contamination_rate"
      (savedReportJson (evaluateRun [c8CaseA, c8CaseB] c8RetrOracle c8RagOracle).1) = false
    rw [hres]
    simp [savedReportJson, caseResultJson, jsonHasKey, jsonHasKey_arr_str, jsonHasKey_arr_num]

/-- C8 amended: the persisted evaluation report is exactly the array of
per-case result objects — each containing every per-case metric plus the raw
retrieved sources and retrieval scores — and every key occurring anywhere in
the persisted report is a per-case key; the global aggregate summary is
computed and printed but not persisted. -/
theorem c8_persisted_report (cases : List EvalCase)
    (retrO : EvalCase → List RawItem) (ragO : EvalCase → GenerationResult) :
    (evaluateRun cases retrO ragO).2.2 =
      Json.arr ((evaluateRun cases retrO ragO).1.map caseResultJson) ∧
    (∀ r ∈ (evaluateRun cases retrO ragO).1, ∀ k ∈ perCaseKeys,
      jsonHasKey k (caseResultJson r) = true) ∧
    (∀ k, jsonHasKey k (evaluateRun cases retrO ragO).2.2 = true →
      k ∈ perCaseKeys) := by
  refine ⟨rfl, ?_, ?_⟩
  · intro r _ k hk
    fin_cases hk <;> simp [caseResultJson, jsonHasKey]
  · intro k h
    exact jsonHasKey_savedReport _ h

/-- C8 witness: in a concrete one-case run, the per-case object carries the
"sources_retrieved" key and every key of the persisted report is a per-case
key. -/
theorem c8_witness :
    jsonHasKey "sources_retrieved"
      (caseResultJson (evaluateCase c8CaseA
        (retrieveResults (c8RetrOracle c8CaseA)) (c8RagOracle c8CaseA))) = true ∧
    "query" ∈ perCaseKeys :=
  ⟨(c8_persisted_report [c8CaseA] c8RetrOracle c8RagOracle).2.1
      (evaluateCase c8CaseA (retrieveResults (c8RetrOracle c8CaseA)) (c8RagOracle c8CaseA))
      (by simp [evaluateRun]) "sources_retrieved" (by decide),
   (c8_persisted_report [c8CaseA] c8RetrOracle c8RagOracle).2.2 "query"
      (by simp [evaluateRun, savedReportJson, caseResultJson, jsonHasKey])⟩

end EvalRetrieval
